import Mathlib

/-!
Verification of the CarbonIQ emissions core: a shallow embedding of the
`EmissionsCalculator` class (stateless-input / stateful-accumulation
CO₂ estimator) and of the raw OBD-II PID decoder `OBDService.parseOBDResponse`.

JavaScript numbers are modelled by `ℚ`; a value that may be JavaScript
`NaN` is modelled by `Option ℚ` (`none` = `NaN`).  The mutable fields of
the estimator object are gathered in `EmissionsState` and every method is
embedded as an explicit state-passing function.
-/

/-! ## Emissions calculator: constants and data model -/

/-- Air-fuel ratio at stoichiometric (gasoline), `AFR_STOICH` in the source. -/
def AFR_STOICH : ℚ := 14.7

/-- Fuel density in grams per liter, `FUEL_DENSITY_G_PER_L` in the source. -/
def FUEL_DENSITY_G_PER_L : ℚ := 745

/-- CO₂ emission factor, grams per liter of fuel, `EF_CO2_G_PER_L` in the source. -/
def EF_CO2_G_PER_L : ℚ := 2340

/-- One tick's input sample (`EmissionsInputs`); the optional fields are
JavaScript fields that may be `undefined`. -/
structure EmissionsInputs where
  dt_s : ℚ
  speed_mps : ℚ
  maf_gps : Option ℚ
  fuel_rate_Lh : Option ℚ
  lambda_equiv : Option ℚ
deriving Repr, DecidableEq

/-- The flags block of the per-tick output. -/
structure EmissionsFlags where
  used_maf : Bool
  used_fuel_rate : Bool
  stale : Bool
deriving Repr, DecidableEq

/-- Per-tick output (`EmissionsOutputs`); `none` models JavaScript `null`. -/
structure EmissionsOutputs where
  co2_gps : ℚ
  co2_g_per_km_instant : Option ℚ
  total_co2_g : ℚ
  distance_km : ℚ
  avg_co2_g_per_km : Option ℚ
  flags : EmissionsFlags
deriving Repr, DecidableEq

/-- Summary snapshot (`EmissionsSummary`). -/
structure EmissionsSummary where
  total_co2_g : ℚ
  distance_km : ℚ
  avg_co2_g_per_km : Option ℚ
deriving Repr, DecidableEq

/-- The mutable fields of the `EmissionsCalculator` instance. -/
structure EmissionsState where
  total_co2_g : ℚ
  distance_km : ℚ
deriving Repr, DecidableEq

/-- Field initializers of the class: both totals start at 0. -/
def EmissionsState.init : EmissionsState := ⟨0, 0⟩

/-- JavaScript `x || 1.0` on the optional field `lambda_equiv`:
`undefined` and the falsy number `0` both give `1.0`. -/
def jsOr1 : Option ℚ → ℚ
  | none => 1
  | some x => if x = 0 then 1 else x

/-- Result record of the private method `calculateFuelFlow`. -/
structure FuelFlowResult where
  fuel_vol_flow_Lps : ℚ
  used_maf : Bool
  used_fuel_rate : Bool
  stale : Bool
deriving Repr, DecidableEq

/-- Paths B and C of `calculateFuelFlow`: use `fuel_rate_Lh` if present and
positive, otherwise report stale. -/
def fuelFlowFallback (inputs : EmissionsInputs) : FuelFlowResult :=
  match inputs.fuel_rate_Lh with
  | some r =>
      if 0 < r then
        { fuel_vol_flow_Lps := r / 3600, used_maf := false, used_fuel_rate := true, stale := false }
      else
        { fuel_vol_flow_Lps := 0, used_maf := false, used_fuel_rate := false, stale := true }
  | none =>
      { fuel_vol_flow_Lps := 0, used_maf := false, used_fuel_rate := false, stale := true }

/-- `EmissionsCalculator.calculateFuelFlow`: path A uses MAF when present and
positive, with `lambda_eff = max(0.8, lambda_equiv || 1.0)`; otherwise the
fallback paths run. -/
def calculateFuelFlow (inputs : EmissionsInputs) : FuelFlowResult :=
  match inputs.maf_gps with
  | some m =>
      if 0 < m then
        let lambda_eff := max (0.8 : ℚ) (jsOr1 inputs.lambda_equiv)
        let fuel_mass_flow_gps := m / (AFR_STOICH * lambda_eff)
        { fuel_vol_flow_Lps := fuel_mass_flow_gps / FUEL_DENSITY_G_PER_L,
          used_maf := true, used_fuel_rate := false, stale := false }
      else
        fuelFlowFallback inputs
  | none => fuelFlowFallback inputs

/-- `EmissionsCalculator.getLastStableOutputs`: last-known totals with zero
instantaneous flow and `stale = true`. -/
def getLastStableOutputs (s : EmissionsState) : EmissionsOutputs :=
  { co2_gps := 0,
    co2_g_per_km_instant := none,
    total_co2_g := s.total_co2_g,
    distance_km := s.distance_km,
    avg_co2_g_per_km := if 0 < s.distance_km then some (s.total_co2_g / s.distance_km) else none,
    flags := { used_maf := false, used_fuel_rate := false, stale := true } }

/-- `EmissionsCalculator.ingestTick`: guard, fuel-flow selection, CO₂ flow,
instantaneous intensity, accumulation, running average.  Returns the updated
state together with the per-tick outputs. -/
def ingestTick (s : EmissionsState) (inputs : EmissionsInputs) :
    EmissionsState × EmissionsOutputs :=
  if inputs.dt_s ≤ 0 ∨ inputs.speed_mps < 0 then
    (s, getLastStableOutputs s)
  else
    let f := calculateFuelFlow inputs
    if f.stale then
      (s, getLastStableOutputs s)
    else
      let co2_gps := f.fuel_vol_flow_Lps * EF_CO2_G_PER_L
      let co2_g_per_km_instant :=
        if 0 < inputs.speed_mps then some (co2_gps / inputs.speed_mps * 1000) else none
      let total' := s.total_co2_g + co2_gps * inputs.dt_s
      let distance' := s.distance_km + inputs.speed_mps * inputs.dt_s / 1000
      let avg := if 0 < distance' then some (total' / distance') else none
      (⟨total', distance'⟩,
       { co2_gps := co2_gps,
         co2_g_per_km_instant := co2_g_per_km_instant,
         total_co2_g := total',
         distance_km := distance',
         avg_co2_g_per_km := avg,
         flags := { used_maf := f.used_maf, used_fuel_rate := f.used_fuel_rate, stale := f.stale } })

/-- `EmissionsCalculator.reset`: zero both cumulative fields. -/
def reset (_s : EmissionsState) : EmissionsState := ⟨0, 0⟩

/-- `EmissionsCalculator.getSummary`: the method body only reads the two
fields, so the embedded method returns the state unchanged together with the
snapshot. -/
def getSummary (s : EmissionsState) : EmissionsState × EmissionsSummary :=
  (s,
   { total_co2_g := s.total_co2_g,
     distance_km := s.distance_km,
     avg_co2_g_per_km :=
       if 0 < s.distance_km then some (s.total_co2_g / s.distance_km) else none })

/-- A sequence of `ingestTick` calls, threading the state. -/
def runTicks (s : EmissionsState) : List EmissionsInputs → EmissionsState
  | [] => s
  | i :: rest => runTicks (ingestTick s i).1 rest

/-! ## PID decoder (`OBDService.parseOBDResponse`)

JavaScript `parseInt(s, 16)` returns `NaN` (never an exception) when no hex
digit can be read; `NaN` is modelled by `none`, and arithmetic on a `NaN`
operand propagates it. -/

/-- Characters matched by the JavaScript regex `\s` (ASCII range). -/
def jsIsWhitespace (c : Char) : Bool :=
  c == ' ' || c == '\t' || c == '\n' || c == '\r' ||
    c == Char.ofNat 11 || c == Char.ofNat 12

/-- Value of one hexadecimal digit, `none` for a non-digit (code points:
48–57 are `0`–`9`, 65–70 are `A`–`F`, 97–102 are `a`–`f`). -/
def hexDigitVal (c : Char) : Option ℕ :=
  let n := c.toNat
  if 48 ≤ n ∧ n ≤ 57 then some (n - 48)
  else if 65 ≤ n ∧ n ≤ 70 then some (n - 55)
  else if 97 ≤ n ∧ n ≤ 102 then some (n - 87)
  else none

/-- Accumulate the value of the longest hex-digit run at the head of the
list, stopping at the first non-digit. -/
def hexAcc : List Char → ℕ → ℕ
  | [], acc => acc
  | c :: rest, acc =>
      match hexDigitVal c with
      | some d => hexAcc rest (16 * acc + d)
      | none => acc

/-- Whether the list starts with a hex digit (so `parseInt` reads a number
rather than `NaN`). -/
def hasHexDigit : List Char → Bool
  | [] => false
  | c :: _ => (hexDigitVal c).isSome

/-- Strip an optional leading `0x`/`0X` prefix, as `parseInt` does for
radix 16. -/
def stripHex0x : List Char → List Char
  | '0' :: 'x' :: rest => rest
  | '0' :: 'X' :: rest => rest
  | cs => cs

/-- JavaScript `parseInt(s, 16)`: trim leading whitespace, optional sign,
optional `0x` prefix, then the longest hex-digit run; `none` models `NaN`. -/
def jsParseIntHex (cs : List Char) : Option ℤ :=
  let t := cs.dropWhile jsIsWhitespace
  match t with
  | '-' :: rest =>
      let u := stripHex0x rest
      if hasHexDigit u then some (-(hexAcc u 0 : ℤ)) else none
  | '+' :: rest =>
      let u := stripHex0x rest
      if hasHexDigit u then some ((hexAcc u 0 : ℤ)) else none
  | _ =>
      let u := stripHex0x t
      if hasHexDigit u then some ((hexAcc u 0 : ℤ)) else none

/-- `OBDService.parseOBDResponse`: strip whitespace, uppercase, drop the
4-character header, then apply the per-PID formula; `none` models a `NaN`
result.  The known PIDs are SPEED `010D`, RPM `010C`, MAF `0110`,
ENGINE_LOAD `0104` and THROTTLE `0111`; every other PID returns 0. -/
def parseOBDResponse (response : String) (pid : String) : Option ℚ :=
  let clean : List Char := (response.toList.filter (fun c => ! jsIsWhitespace c)).map Char.toUpper
  let dataBytes := clean.drop 4
  if pid = "010D" then
    (jsParseIntHex (dataBytes.take 2)).map (fun a => (a : ℚ))
  else if pid = "010C" then
    match jsParseIntHex (dataBytes.take 2), jsParseIntHex ((dataBytes.drop 2).take 2) with
    | some a, some b => some (((a : ℚ) * 256 + (b : ℚ)) / 4)
    | _, _ => none
  else if pid = "0110" then
    match jsParseIntHex (dataBytes.take 2), jsParseIntHex ((dataBytes.drop 2).take 2) with
    | some a, some b => some (((a : ℚ) * 256 + (b : ℚ)) / 100)
    | _, _ => none
  else if pid = "0104" then
    (jsParseIntHex (dataBytes.take 2)).map (fun a => ((a : ℚ) * 100) / 255)
  else if pid = "0111" then
    (jsParseIntHex (dataBytes.take 2)).map (fun a => ((a : ℚ) * 100) / 255)
  else
    some 0

/-! ## Concrete inputs used by the claims -/

/-- The single tick of claim C1. -/
def c1Input : EmissionsInputs :=
  { dt_s := 1, speed_mps := 10, maf_gps := some 14.7, fuel_rate_Lh := none,
    lambda_equiv := some 1 }

/-- Input with both fuel signals present and positive, used to witness C2. -/
def c2Input : EmissionsInputs :=
  { dt_s := 1, speed_mps := 0, maf_gps := some 14.7, fuel_rate_Lh := some 3.6,
    lambda_equiv := none }

/-- Input with MAF present and positive, used to witness C10. -/
def c10Input : EmissionsInputs :=
  { dt_s := 1, speed_mps := 0, maf_gps := some 1, fuel_rate_Lh := none,
    lambda_equiv := none }

/-! ## Claim C1 -/

/-- C1: from a freshly-reset estimator, the tick `maf_gps = 14.7`,
`lambda_equiv = 1.0`, `speed_mps = 10`, `dt_s = 1` returns
`co2_gps = 2340/745`, `co2_g_per_km_instant = (2340/745)/10·1000`,
`distance_km = 0.01` and `total_co2_g = 2340/745`. -/
theorem c1_single_tick_values :
    (ingestTick EmissionsState.init c1Input).2.co2_gps = 2340 / 745 ∧
    (ingestTick EmissionsState.init c1Input).2.co2_g_per_km_instant
      = some (2340 / 745 / 10 * 1000) ∧
    (ingestTick EmissionsState.init c1Input).2.distance_km = 1 / 100 ∧
    (ingestTick EmissionsState.init c1Input).2.total_co2_g = 2340 / 745 := by
  refine ⟨?_, ?_, ?_, ?_⟩ <;>
    simp [ingestTick, c1Input, EmissionsState.init, calculateFuelFlow, jsOr1,
      AFR_STOICH, FUEL_DENSITY_G_PER_L, EF_CO2_G_PER_L, getLastStableOutputs] <;>
    norm_num

/-! ## Claim C2 -/

/-- C2: fuel-flow selection follows the priority chain with the per-branch
formulas: MAF (when present and positive) gives
`(maf / (14.7 · max(0.8, lambda_equiv or 1.0))) / 745` with `used_maf`;
otherwise a present positive `fuel_rate_Lh` gives `fuel_rate_Lh / 3600` with
`used_fuel_rate`; when both are present and positive, MAF wins and the two
signals are never averaged. -/
theorem c2_fuel_flow_priority (i : EmissionsInputs) :
    (∀ m : ℚ, i.maf_gps = some m → 0 < m →
      calculateFuelFlow i =
        { fuel_vol_flow_Lps := m / (14.7 * max 0.8 (jsOr1 i.lambda_equiv)) / 745,
          used_maf := true, used_fuel_rate := false, stale := false }) ∧
    (¬ 0 < i.maf_gps.getD 0 → ∀ r : ℚ, i.fuel_rate_Lh = some r → 0 < r →
      calculateFuelFlow i =
        { fuel_vol_flow_Lps := r / 3600,
          used_maf := false, used_fuel_rate := true, stale := false }) ∧
    (∀ m r : ℚ, i.maf_gps = some m → 0 < m → i.fuel_rate_Lh = some r → 0 < r →
      (calculateFuelFlow i).used_maf = true ∧ (calculateFuelFlow i).used_fuel_rate = false) := by
  refine ⟨?_, ?_, ?_⟩
  · intro m hm hpos
    simp [calculateFuelFlow, hm, hpos, AFR_STOICH, FUEL_DENSITY_G_PER_L]
  · intro hneg r hr hpos
    cases hmg : i.maf_gps with
    | none => simp [calculateFuelFlow, hmg, fuelFlowFallback, hr, hpos]
    | some m =>
        rw [hmg] at hneg
        simp only [Option.getD_some] at hneg
        simp [calculateFuelFlow, hmg, hneg, fuelFlowFallback, hr, hpos]
  · intro m r hm hmp hr hrp
    simp [calculateFuelFlow, hm, hmp]

theorem c2_fuel_flow_priority_witness :
    (0:ℚ) < 14.7 ∧ (0:ℚ) < 3.6 ∧
    ((calculateFuelFlow c2Input).used_maf = true ∧
     (calculateFuelFlow c2Input).used_fuel_rate = false) :=
  ⟨by norm_num, by norm_num,
   (c2_fuel_flow_priority c2Input).2.2 14.7 3.6 rfl (by norm_num) rfl (by norm_num)⟩

/-! ## Claim C3 -/

/-- C3: a tick with `dt_s ≤ 0` or `speed_mps < 0` leaves the state unchanged
and returns the last-known totals with `stale = true`, zero instantaneous
flow and no instantaneous intensity.  (`ingestTick` is a total function, so
no exception can occur.) -/
theorem c3_invalid_tick_rejected (s : EmissionsState) (i : EmissionsInputs)
    (h : i.dt_s ≤ 0 ∨ i.speed_mps < 0) :
    ingestTick s i = (s, getLastStableOutputs s) ∧
    (ingestTick s i).2.flags.stale = true ∧
    (ingestTick s i).2.co2_gps = 0 ∧
    (ingestTick s i).2.co2_g_per_km_instant = none ∧
    (ingestTick s i).2.total_co2_g = s.total_co2_g ∧
    (ingestTick s i).2.distance_km = s.distance_km := by
  have he : ingestTick s i = (s, getLastStableOutputs s) := by
    unfold ingestTick
    rw [if_pos h]
  refine ⟨he, ?_, ?_, ?_, ?_, ?_⟩ <;> rw [he] <;> simp [getLastStableOutputs]

theorem c3_invalid_tick_rejected_witness :
    ((0:ℚ) ≤ 0 ∨ (3:ℚ) < 0) ∧
    (ingestTick ⟨5, 2⟩ ⟨0, 3, none, none, none⟩).2.flags.stale = true :=
  ⟨Or.inl le_rfl,
   (c3_invalid_tick_rejected ⟨5, 2⟩ ⟨0, 3, none, none, none⟩ (Or.inl (by norm_num))).2.1⟩

/-! ## Claim C4 -/

/-- C4: a tick that passes the guard but carries no present-and-positive fuel
signal is stale: `co2_gps = 0`, `co2_g_per_km_instant = null`, and both
cumulative totals keep their pre-tick values. -/
theorem c4_no_signal_stale (s : EmissionsState) (i : EmissionsInputs)
    (hdt : 0 < i.dt_s) (hsp : 0 ≤ i.speed_mps)
    (hm : ∀ m : ℚ, i.maf_gps = some m → m ≤ 0)
    (hr : ∀ r : ℚ, i.fuel_rate_Lh = some r → r ≤ 0) :
    (ingestTick s i).2.flags.stale = true ∧
    (ingestTick s i).2.co2_gps = 0 ∧
    (ingestTick s i).2.co2_g_per_km_instant = none ∧
    (ingestTick s i).1 = s ∧
    (ingestTick s i).2.total_co2_g = s.total_co2_g ∧
    (ingestTick s i).2.distance_km = s.distance_km := by
  have hguard : ¬ (i.dt_s ≤ 0 ∨ i.speed_mps < 0) := by
    push_neg
    exact ⟨hdt, hsp⟩
  have hfb : fuelFlowFallback i = ⟨0, false, false, true⟩ := by
    unfold fuelFlowFallback
    cases hfr : i.fuel_rate_Lh with
    | none => rfl
    | some r =>
        have hrle := hr r hfr
        simp [not_lt.mpr hrle]
  have hstale : calculateFuelFlow i = ⟨0, false, false, true⟩ := by
    unfold calculateFuelFlow
    cases hmg : i.maf_gps with
    | none => exact hfb
    | some m =>
        have hmle := hm m hmg
        simp [not_lt.mpr hmle, hfb]
  have he : ingestTick s i = (s, getLastStableOutputs s) := by
    unfold ingestTick
    rw [if_neg hguard]
    simp [hstale]
  refine ⟨?_, ?_, ?_, ?_, ?_, ?_⟩ <;> rw [he] <;> simp [getLastStableOutputs]

theorem c4_no_signal_stale_witness :
    (0:ℚ) < 1 ∧ (0:ℚ) ≤ 2 ∧
    (ingestTick ⟨7, 3⟩ ⟨1, 2, none, some 0, none⟩).2.flags.stale = true ∧
    (ingestTick ⟨7, 3⟩ ⟨1, 2, none, some 0, none⟩).1 = ⟨7, 3⟩ :=
  ⟨by norm_num, by norm_num,
   (c4_no_signal_stale ⟨7, 3⟩ ⟨1, 2, none, some 0, none⟩ (by norm_num) (by norm_num)
     (fun m hm => by simp at hm) (fun r hr => by simp at hr; simp [hr.symm])).1,
   (c4_no_signal_stale ⟨7, 3⟩ ⟨1, 2, none, some 0, none⟩ (by norm_num) (by norm_num)
     (fun m hm => by simp at hm) (fun r hr => by simp at hr; simp [hr.symm])).2.2.2.1⟩

/-! ## Claim C5 -/

/-- The fuel volumetric flow computed by `calculateFuelFlow` is never
negative: the MAF branch divides a positive MAF by positive constants, the
fuel-rate branch divides a positive rate by 3600, and the stale branch
returns 0. -/
lemma calculateFuelFlow_nonneg (i : EmissionsInputs) :
    0 ≤ (calculateFuelFlow i).fuel_vol_flow_Lps := by
  have hfb : 0 ≤ (fuelFlowFallback i).fuel_vol_flow_Lps := by
    unfold fuelFlowFallback
    cases hfr : i.fuel_rate_Lh with
    | none => norm_num
    | some r =>
        by_cases hrp : 0 < r
        · simp [hrp]
          positivity
        · simp [hrp]
  unfold calculateFuelFlow
  cases hmg : i.maf_gps with
  | none => exact hfb
  | some m =>
      by_cases hmp : 0 < m
      · have hden : (0:ℚ) < AFR_STOICH * max 0.8 (jsOr1 i.lambda_equiv) := by
          have h8 : (0.8:ℚ) ≤ max 0.8 (jsOr1 i.lambda_equiv) := le_max_left _ _
          rw [AFR_STOICH]
          nlinarith
        simp only [hmp, if_pos]
        exact div_nonneg (div_nonneg hmp.le hden.le) (by norm_num [FUEL_DENSITY_G_PER_L])
      · simp [hmp, hfb]

/-- One accepted or rejected tick never decreases either cumulative total. -/
lemma ingestTick_state_mono (s : EmissionsState) (i : EmissionsInputs) :
    s.total_co2_g ≤ (ingestTick s i).1.total_co2_g ∧
    s.distance_km ≤ (ingestTick s i).1.distance_km := by
  unfold ingestTick
  by_cases hg : i.dt_s ≤ 0 ∨ i.speed_mps < 0
  · rw [if_pos hg]
    exact ⟨le_refl _, le_refl _⟩
  · rw [if_neg hg]
    push_neg at hg
    obtain ⟨hdt, hsp⟩ := hg
    by_cases hst : (calculateFuelFlow i).stale = true
    · simp [hst]
    · have hflow := calculateFuelFlow_nonneg i
      have hco2 : 0 ≤ (calculateFuelFlow i).fuel_vol_flow_Lps * EF_CO2_G_PER_L * i.dt_s := by
        have : (0:ℚ) ≤ EF_CO2_G_PER_L := by norm_num [EF_CO2_G_PER_L]
        positivity
      have hdist : 0 ≤ i.speed_mps * i.dt_s / 1000 := by positivity
      simp only [hst, if_neg, Bool.false_eq_true, not_false_eq_true]
      constructor <;> simp <;> linarith

/-- C5: cumulative totals are monotonically non-decreasing, both across one
`ingestTick` call from any state and across any sequence of calls. -/
theorem c5_totals_monotone :
    (∀ (s : EmissionsState) (i : EmissionsInputs),
      s.total_co2_g ≤ (ingestTick s i).1.total_co2_g ∧
      s.distance_km ≤ (ingestTick s i).1.distance_km) ∧
    (∀ (s : EmissionsState) (l : List EmissionsInputs),
      s.total_co2_g ≤ (runTicks s l).total_co2_g ∧
      s.distance_km ≤ (runTicks s l).distance_km) := by
  refine ⟨ingestTick_state_mono, ?_⟩
  intro s l
  induction l generalizing s with
  | nil => exact ⟨le_refl _, le_refl _⟩
  | cons i rest ih =>
      have h1 := ingestTick_state_mono s i
      have h2 := ih (ingestTick s i).1
      exact ⟨le_trans h1.1 h2.1, le_trans h1.2 h2.2⟩

/-! ## Claim C6 -/

/-- C6 fails on the code: a too-short speed response leaves no data bytes,
`parseInt` returns `NaN` (not an exception, so the surrounding catch never
fires), and the decoder yields `NaN` (`none`) instead of the 0 the claim
requires.  The same happens for a short RPM response. -/
theorem c6_malformed_yields_nan_not_zero :
    parseOBDResponse "41" "010D" = none ∧
    parseOBDResponse "41" "010D" ≠ some 0 ∧
    parseOBDResponse "410C" "010C" = none := by
  refine ⟨by decide, by decide, by decide⟩

/-! ## Claim C7 -/

/-- Reduction of the RPM branch of `parseOBDResponse` once the two data
bytes parse to concrete integers. -/
lemma parseOBDResponse_rpm_eq (response : String) (a b : ℤ)
    (ha : jsParseIntHex ((((response.toList.filter
        (fun c => ! jsIsWhitespace c)).map Char.toUpper).drop 4).take 2) = some a)
    (hb : jsParseIntHex (((((response.toList.filter
        (fun c => ! jsIsWhitespace c)).map Char.toUpper).drop 4).drop 2).take 2) = some b) :
    parseOBDResponse response "010C" = some (((a : ℚ) * 256 + (b : ℚ)) / 4) := by
  simp only [parseOBDResponse]
  rw [if_neg (by decide : ¬("010C" : String) = "010D")]
  rw [if_pos trivial]
  rw [ha, hb]

/-- Reduction of the MAF branch of `parseOBDResponse` once the two data
bytes parse to concrete integers. -/
lemma parseOBDResponse_maf_eq (response : String) (a b : ℤ)
    (ha : jsParseIntHex ((((response.toList.filter
        (fun c => ! jsIsWhitespace c)).map Char.toUpper).drop 4).take 2) = some a)
    (hb : jsParseIntHex (((((response.toList.filter
        (fun c => ! jsIsWhitespace c)).map Char.toUpper).drop 4).drop 2).take 2) = some b) :
    parseOBDResponse response "0110" = some (((a : ℚ) * 256 + (b : ℚ)) / 100) := by
  simp only [parseOBDResponse]
  rw [if_neg (by decide : ¬("0110" : String) = "010D")]
  rw [if_neg (by decide : ¬("0110" : String) = "010C")]
  rw [if_pos trivial]
  rw [ha, hb]

/-- C7: after normalization (strip whitespace, uppercase, drop the
4-character header) the standardized per-PID formulas apply: speed data byte
`0x32` gives 50 km/h, RPM data bytes `0x1A,0x2C` give 1675, MAF data bytes
`0x01,0x90` give 4.00 g/s, and any PID outside the known set decodes to 0
for every response. -/
theorem c7_pid_formulas :
    parseOBDResponse "41 0D 32" "010D" = some 50 ∧
    parseOBDResponse "41 0c 1a 2c" "010C" = some 1675 ∧
    parseOBDResponse "41 10 01 90" "0110" = some 4 ∧
    (∀ (pid response : String),
      pid ≠ "010D" → pid ≠ "010C" → pid ≠ "0110" → pid ≠ "0104" → pid ≠ "0111" →
      parseOBDResponse response pid = some 0) := by
  refine ⟨by decide, ?_, ?_, ?_⟩
  · rw [parseOBDResponse_rpm_eq "41 0c 1a 2c" 26 44 (by decide) (by decide)]
    norm_num
  · rw [parseOBDResponse_maf_eq "41 10 01 90" 1 144 (by decide) (by decide)]
    norm_num
  · intro pid response h1 h2 h3 h4 h5
    simp [parseOBDResponse, h1, h2, h3, h4, h5]

theorem c7_pid_formulas_witness :
    (("0105" : String) ≠ "010D" ∧ ("0105" : String) ≠ "010C" ∧
     ("0105" : String) ≠ "0110" ∧ ("0105" : String) ≠ "0104" ∧
     ("0105" : String) ≠ "0111") ∧
    parseOBDResponse "7F 01 12" "0105" = some 0 :=
  ⟨⟨by decide, by decide, by decide, by decide, by decide⟩,
   c7_pid_formulas.2.2.2 "0105" "7F 01 12" (by decide) (by decide) (by decide)
     (by decide) (by decide)⟩

/-! ## Claim C8 -/

/-- C8: `reset` followed by `getSummary` yields the zero summary with a null
average, and `reset` is idempotent. -/
theorem c8_reset_summary_idempotent (s : EmissionsState) :
    (getSummary (reset s)).2 = ⟨0, 0, none⟩ ∧ reset (reset s) = reset s := by
  constructor
  · simp [getSummary, reset]
  · rfl

/-! ## Claim C9 -/

/-- C9: `getSummary` returns the state unchanged (its body only reads the two
cumulative fields) and its snapshot is exactly the totals with
`avg = total/distance` when `distance > 0` and null otherwise. -/
theorem c9_getSummary_readonly (s : EmissionsState) :
    (getSummary s).1 = s ∧
    (getSummary s).2 =
      ⟨s.total_co2_g, s.distance_km,
       if 0 < s.distance_km then some (s.total_co2_g / s.distance_km) else none⟩ :=
  ⟨rfl, rfl⟩

/-! ## Claim C10 -/

/-- C10: with MAF present and positive, `lambda_equiv = 0` is falsy for `||`
and gives `λ_eff = 1`, while any `lambda_equiv` strictly between 0 and 0.8 is
floored to `λ_eff = 0.8`; hence a zero lambda yields a strictly smaller fuel
flow than any lambda in (0, 0.8). -/
theorem c10_lambda_zero_vs_floor (i : EmissionsInputs) (m l : ℚ)
    (hmaf : i.maf_gps = some m) (hm : 0 < m) (hl0 : 0 < l) (hl8 : l < 0.8) :
    (calculateFuelFlow { i with lambda_equiv := some 0 }).fuel_vol_flow_Lps
      = m / (14.7 * 1) / 745 ∧
    (calculateFuelFlow { i with lambda_equiv := some l }).fuel_vol_flow_Lps
      = m / (14.7 * 0.8) / 745 ∧
    (calculateFuelFlow { i with lambda_equiv := some 0 }).fuel_vol_flow_Lps
      < (calculateFuelFlow { i with lambda_equiv := some l }).fuel_vol_flow_Lps := by
  have h1 : (calculateFuelFlow { i with lambda_equiv := some 0 }).fuel_vol_flow_Lps
      = m / (14.7 * 1) / 745 := by
    simp [calculateFuelFlow, hmaf, hm, jsOr1, AFR_STOICH, FUEL_DENSITY_G_PER_L]
    norm_num
  have h2 : (calculateFuelFlow { i with lambda_equiv := some l }).fuel_vol_flow_Lps
      = m / (14.7 * 0.8) / 745 := by
    have hln : l ≠ 0 := ne_of_gt hl0
    have hmax : max (0.8:ℚ) l = 0.8 := max_eq_left hl8.le
    simp [calculateFuelFlow, hmaf, hm, jsOr1, hln, hmax, AFR_STOICH, FUEL_DENSITY_G_PER_L]
  refine ⟨h1, h2, ?_⟩
  rw [h1, h2, div_div, div_div, div_lt_div_iff₀ (by norm_num) (by norm_num)]
  nlinarith

theorem c10_lambda_zero_vs_floor_witness :
    (0:ℚ) < 1 ∧ (0:ℚ) < 1/2 ∧ (1/2:ℚ) < 0.8 ∧
    (calculateFuelFlow { c10Input with lambda_equiv := some 0 }).fuel_vol_flow_Lps
      < (calculateFuelFlow { c10Input with lambda_equiv := some (1/2) }).fuel_vol_flow_Lps :=
  ⟨by norm_num, by norm_num, by norm_num,
   (c10_lambda_zero_vs_floor c10Input 1 (1/2) rfl (by norm_num) (by norm_num)
     (by norm_num)).2.2⟩
